import Mathlib

/-!
Verification of the layout and animation-scheduling engine of the
Blender-Spider-Web-Shooter repository.

The Python source is shallowly embedded: `mathutils.Vector` becomes `Vec3`
over the reals, Python dataclasses become structures, the Blender
custom-property store on an empty becomes a finite key/value map, and the
`random` module becomes an explicit stream of unit draws and sign draws
passed in. Python `int(x)` (truncation toward zero) is `pyInt`.
-/

namespace SpiderWebAddon

/-- Embedding of `mathutils.Vector` with 3 components; float arithmetic is
read as real arithmetic. -/
@[ext]
structure Vec3 where
  x : ℝ
  y : ℝ
  z : ℝ

namespace Vec3

instance : Zero Vec3 := ⟨⟨0, 0, 0⟩⟩
instance : Add Vec3 := ⟨fun a b => ⟨a.x + b.x, a.y + b.y, a.z + b.z⟩⟩
instance : Sub Vec3 := ⟨fun a b => ⟨a.x - b.x, a.y - b.y, a.z - b.z⟩⟩
instance : Neg Vec3 := ⟨fun a => ⟨-a.x, -a.y, -a.z⟩⟩
instance : SMul ℝ Vec3 := ⟨fun c a => ⟨c * a.x, c * a.y, c * a.z⟩⟩

/-- Embedding of `Vector.dot`. -/
def dot (a b : Vec3) : ℝ := a.x * b.x + a.y * b.y + a.z * b.z

/-- Embedding of `Vector.length`. -/
noncomputable def length (v : Vec3) : ℝ := Real.sqrt (dot v v)

/-- Embedding of `Vector.normalized()` / `Vector.normalize()`: `mathutils`
maps the zero vector to the zero vector and any other vector to
`v / length v`. -/
noncomputable def normalized (v : Vec3) : Vec3 :=
  if length v = 0 then 0 else (1 / length v) • v

/-- Embedding of `Vector.lerp(other, t) = self * (1 - t) + other * t`. -/
def lerp (a b : Vec3) (t : ℝ) : Vec3 := (1 - t) • a + t • b

end Vec3

/-- Embedding of `utils.get_point_offset_from_end(start, end,
distance_from_end)` (src/addon/utils.py lines 20 to 33): the point on the
segment at the given distance back from its end. -/
noncomputable def get_point_offset_from_end (start_v end_v : Vec3) (distance_from_end : ℝ) : Vec3 :=
  if distance_from_end ≥ (end_v - start_v).length then start_v
  else if distance_from_end ≤ 0 then end_v
  else end_v - distance_from_end • (end_v - start_v).normalized

/-- Embedding of `SpiderSpread.calculate_curved_position(start_pos,
end_pos, reference_pos, t, curve_amount)`
(src/spider_web_addon/spider_spread.py lines 56 to 85). -/
noncomputable def calculate_curved_position (start_pos end_pos reference_pos : Vec3)
    (t curve_amount : ℝ) : Vec3 :=
  Vec3.lerp start_pos end_pos t -
    (((t * t - t) * 4.0 * curve_amount) * 0.5) •
      (reference_pos - (0.5 : ℝ) • (start_pos + end_pos)).normalized

/-- Python `int(x)`: truncation toward zero. -/
noncomputable def pyInt (x : ℝ) : ℤ := if 0 ≤ x then ⌊x⌋ else ⌈x⌉

/-- Embedding of `TetherShot.animate_tether`
(src/spider_web_addon/tether_shot.py lines 155 to 157):
`fps = scene.render.fps / scene.render.fps_base` and
`duration_frames = int(shoot_time * fps)`. -/
noncomputable def duration_frames (shoot_time fps fps_base : ℝ) : ℤ :=
  pyInt (shoot_time * (fps / fps_base))

/-- End frame of the shot animation, `end_frame = start_frame +
duration_frames` (tether_shot.py line 158). -/
noncomputable def tether_end_frame (start_frame : ℤ) (shoot_time fps fps_base : ℝ) : ℤ :=
  start_frame + duration_frames shoot_time fps fps_base

/-- Embedding of `SpiderWeb.create_web` line 52
(src/spider_web_addon/spider_web.py): `spread_start_frame = start_frame +
int(shot_travel_time * (fps / fps_base))`. -/
noncomputable def spread_start_frame (start_frame : ℤ) (shot_travel_time fps fps_base : ℝ) : ℤ :=
  start_frame + pyInt (shot_travel_time * (fps / fps_base))

/-- Embedding of the `SpiderShotConfig` dataclass
(src/spider_web_addon/config.py lines 5 to 30). Optional floats are
`Option ℝ` (`None` is `none`). -/
@[ext]
structure SpiderShotConfig where
  shoot_time : ℝ
  is_target_parent : Bool
  is_tethered : Bool
  tether_width : Option ℝ
  tether_slack : Option ℝ
  projectile_size : Option ℝ
  projectile_trail_length : Option ℝ

/-- Embedding of `SpiderShotConfig.__init__` followed by `__post_init__`
(config.py lines 19 to 30): when `is_tethered`, a `None` `tether_width`
becomes `0.02` and a `None` `tether_slack` becomes `0.05`; otherwise a
`None` `projectile_size` becomes `0.02` and a `None`
`projectile_trail_length` becomes `0.5`. The other branch is left as
given. Construction never raises. -/
def mkSpiderShotConfig (shoot_time : ℝ) (is_target_parent is_tethered : Bool)
    (tether_width tether_slack projectile_size projectile_trail_length : Option ℝ) :
    SpiderShotConfig :=
  if is_tethered then
    { shoot_time := shoot_time, is_target_parent := is_target_parent,
      is_tethered := is_tethered,
      tether_width := some (tether_width.getD 0.02),
      tether_slack := some (tether_slack.getD 0.05),
      projectile_size := projectile_size,
      projectile_trail_length := projectile_trail_length }
  else
    { shoot_time := shoot_time, is_target_parent := is_target_parent,
      is_tethered := is_tethered,
      tether_width := tether_width,
      tether_slack := tether_slack,
      projectile_size := some (projectile_size.getD 0.02),
      projectile_trail_length := some (projectile_trail_length.getD 0.5) }

/-- Embedding of `SpiderWebProperties.to_config`
(src/spider_web_addon/properties.py lines 210 to 218): the shot config is
constructed with the inactive branch of the tagged union passed as `None`. -/
def shot_props_to_config (shoot_time : ℝ) (is_target_parent is_tethered : Bool)
    (tether_width tether_slack projectile_size projectile_trail_length : ℝ) :
    SpiderShotConfig :=
  mkSpiderShotConfig shoot_time is_target_parent is_tethered
    (if is_tethered then some tether_width else none)
    (if is_tethered then some tether_slack else none)
    (if is_tethered then none else some projectile_size)
    (if is_tethered then none else some projectile_trail_length)

/-- Embedding of the `SpiderSpreadConfig` dataclass (config.py lines 32 to
42). -/
@[ext]
structure SpiderSpreadConfig where
  radius : ℝ
  height : ℝ
  spread_time : ℝ
  density_spoke : ℕ
  density_rib : ℕ
  web_thickness : ℝ
  curvature : ℝ
  random_spread_edge : ℝ
  random_spread_interior : ℝ

/-- Embedding of `SpiderSpreadConfig.__init__` (a plain dataclass
constructor; config.py lines 32 to 42 contain no validation code and no
`ConfigValidationError` exists anywhere in the repository). -/
def mkSpiderSpreadConfig (radius height spread_time : ℝ) (density_spoke density_rib : ℕ)
    (web_thickness curvature random_spread_edge random_spread_interior : ℝ) :
    SpiderSpreadConfig :=
  { radius := radius, height := height, spread_time := spread_time,
    density_spoke := density_spoke, density_rib := density_rib,
    web_thickness := web_thickness, curvature := curvature,
    random_spread_edge := random_spread_edge,
    random_spread_interior := random_spread_interior }

/-- The validation-failure value the spec describes; it does not exist in
the source. -/
inductive ConfigValidationError where
  | outOfRange
deriving DecidableEq

/-- Spec-side comparison definition, following the words of spec §3/§4.1
(not the source): construction validates `radius>0`, `height≥0`,
`spreadTime>0`, `densitySpoke∈[3,64]`, `densityRib∈[1,32]`,
`webThickness>0`, `curvature∈[0,4]`, `edgeRandomness∈[0,1]`,
`interiorRandomness∈[0,1]` and fails with `ConfigValidationError`
otherwise. The source constructor `mkSpiderSpreadConfig` is compared with
this. -/
noncomputable def specMkSpiderSpreadConfig (radius height spread_time : ℝ)
    (density_spoke density_rib : ℕ)
    (web_thickness curvature random_spread_edge random_spread_interior : ℝ) :
    Except ConfigValidationError SpiderSpreadConfig :=
  if 0 < radius ∧ 0 ≤ height ∧ 0 < spread_time ∧
      3 ≤ density_spoke ∧ density_spoke ≤ 64 ∧ 1 ≤ density_rib ∧ density_rib ≤ 32 ∧
      0 < web_thickness ∧ 0 ≤ curvature ∧ curvature ≤ 4 ∧
      0 ≤ random_spread_edge ∧ random_spread_edge ≤ 1 ∧
      0 ≤ random_spread_interior ∧ random_spread_interior ≤ 1 then
    .ok (mkSpiderSpreadConfig radius height spread_time density_spoke density_rib
      web_thickness curvature random_spread_edge random_spread_interior)
  else
    .error .outOfRange

/-- Default `SpiderShotConfig()` (config.py field defaults, after
`__post_init__`). -/
noncomputable def default_shot_config : SpiderShotConfig :=
  mkSpiderShotConfig 1.0 false true (some 0.02) (some 0.05) (some 0.1) (some 0.5)

/-- Default `SpiderSpreadConfig()` (config.py field defaults). -/
def default_spread_config : SpiderSpreadConfig :=
  mkSpiderSpreadConfig 1.0 0.25 1.0 5 3 0.01 0.1 0.1 0.05

/-- Embedding of the `SpiderWebConfig` dataclass (config.py lines 44 to
49). -/
@[ext]
structure SpiderWebConfig where
  spider_shot_config : SpiderShotConfig
  spider_spread_config : SpiderSpreadConfig
  animate_web : Bool
  start_frame : ℤ

/-- Keys of the flat custom-property store written on the SpiderWeb empty.
Each constructor names one of the Python f-string keys:
`spider_shot_shoot_time`, `spider_shot_is_tethered`,
`spider_shot_tether_width`, `spider_shot_tether_slack`,
`spider_shot_projectile_size`, `spider_shot_projectile_trail_length`,
`spider_spread_radius`, `spider_spread_height`,
`spider_spread_spread_time`, `spider_spread_density_spoke`,
`spider_spread_density_rib`, `spider_spread_curvature`,
`spider_spread_random_spread_edge`, `spider_spread_random_spread_interior`,
`spider_web_animate_web`, `spider_web_start_frame`, and the indexed ledger
keys `spider_spread_edge_random_x_{i}`, `spider_spread_edge_random_y_{i}`,
`spider_spread_interior_random_{i}_{j}` (decimal rendering of indices is
injective, so the constructors are in bijection with the key strings). -/
inductive PKey where
  | shot_shoot_time
  | shot_is_tethered
  | shot_tether_width
  | shot_tether_slack
  | shot_projectile_size
  | shot_projectile_trail_length
  | spread_radius
  | spread_height
  | spread_spread_time
  | spread_density_spoke
  | spread_density_rib
  | spread_curvature
  | spread_random_spread_edge
  | spread_random_spread_interior
  | web_animate_web
  | web_start_frame
  | edge_random_x (i : ℕ)
  | edge_random_y (i : ℕ)
  | interior_random (i j : ℕ)
deriving DecidableEq

/-- A scalar value held by the custom-property store: float, int or bool. -/
inductive PVal where
  | f (v : ℝ)
  | n (v : ℤ)
  | b (v : Bool)

/-- The flat custom-property store on a Blender empty (key lookup returns
the stored value, or nothing when the key is absent). -/
def Store : Type := PKey → Option PVal

/-- The store of a freshly created empty: no keys present. -/
def Store.empty : Store := fun _ => none

/-- Dictionary assignment `empty[key] = value`. -/
def Store.set (s : Store) (k : PKey) (v : PVal) : Store :=
  fun k' => if k' = k then some v else s k'

/-- Embedding of `SpiderShot.store_config_on_empty`
(src/spider_web_addon/spider_shot.py lines 19 to 67): each `None` optional
is stored as a per-field fallback (`tether_width` 0.1, `tether_slack`
0.05, `projectile_size` 0.5, `projectile_trail_length` 1.0).
`is_target_parent` is not stored. -/
noncomputable def shot_store_config_on_empty (c : SpiderShotConfig) (s : Store) : Store :=
  (((((s.set .shot_shoot_time (.f c.shoot_time)).set
      .shot_is_tethered (.b c.is_tethered)).set
      .shot_tether_width (.f (c.tether_width.getD 0.1))).set
      .shot_tether_slack (.f (c.tether_slack.getD 0.05))).set
      .shot_projectile_size (.f (c.projectile_size.getD 0.5))).set
      .shot_projectile_trail_length (.f (c.projectile_trail_length.getD 1.0))

/-- First loop of `SpiderSpread.store_random_values_on_empty`
(src/spider_web_addon/spider_spread.py lines 536 to 539): stores the edge
offsets in dictionary (insertion) order. -/
def store_edge_entries (edge : List (ℕ × ℝ × ℝ)) (s : Store) : Store :=
  edge.foldl (fun acc p =>
    (acc.set (.edge_random_x p.1) (.f p.2.1)).set (.edge_random_y p.1) (.f p.2.2)) s

/-- Second loop of `SpiderSpread.store_random_values_on_empty`
(spider_spread.py lines 541 to 543): stores the interior offsets. -/
def store_interior_entries (interior : List ((ℕ × ℕ) × ℝ)) (s : Store) : Store :=
  interior.foldl (fun acc p =>
    acc.set (.interior_random p.1.1 p.1.2) (.f p.2)) s

/-- Embedding of `SpiderSpread.store_random_values_on_empty`
(spider_spread.py lines 534 to 543): one scalar entry per ledger index. -/
def spread_store_random_values_on_empty (edge : List (ℕ × ℝ × ℝ))
    (interior : List ((ℕ × ℕ) × ℝ)) (s : Store) : Store :=
  store_interior_entries interior (store_edge_entries edge s)

/-- Classifier separating the indexed ledger keys from the fixed config
keys. -/
def PKey.isLedgerKey : PKey → Bool
  | .edge_random_x _ => true
  | .edge_random_y _ => true
  | .interior_random _ _ => true
  | _ => false

/-- Embedding of `SpiderSpread.store_config_on_empty` (spider_spread.py
lines 467 to 532): stores eight scalar fields (`web_thickness` is never
stored) and then the random-value entries. -/
noncomputable def spread_store_config_on_empty (c : SpiderSpreadConfig)
    (edge : List (ℕ × ℝ × ℝ)) (interior : List ((ℕ × ℕ) × ℝ)) (s : Store) : Store :=
  spread_store_random_values_on_empty edge interior
    ((((((((s.set .spread_radius (.f c.radius)).set
        .spread_height (.f c.height)).set
        .spread_spread_time (.f c.spread_time)).set
        .spread_density_spoke (.n c.density_spoke)).set
        .spread_density_rib (.n c.density_rib)).set
        .spread_curvature (.f c.curvature)).set
        .spread_random_spread_edge (.f c.random_spread_edge)).set
        .spread_random_spread_interior (.f c.random_spread_interior))

/-- Embedding of `SpiderWeb.store_config_on_empty` (spider_web.py lines 61
to 75). -/
def web_store_config_on_empty (animate_web : Bool) (start_frame : ℤ) (s : Store) : Store :=
  (s.set .web_animate_web (.b animate_web)).set .web_start_frame (.n start_frame)

/-- The storing sequence of `SpiderWeb.create_web` lines 57 to 59: shot
config, then spread config (with the ledger entries), then web-level
config, all on the same SpiderWeb empty. -/
noncomputable def store_config_on_empty (c : SpiderWebConfig)
    (edge : List (ℕ × ℝ × ℝ)) (interior : List ((ℕ × ℕ) × ℝ)) (s : Store) : Store :=
  web_store_config_on_empty c.animate_web c.start_frame
    (spread_store_config_on_empty c.spider_spread_config edge interior
      (shot_store_config_on_empty c.spider_shot_config s))

/-- Embedding of `SpiderShot.load_config_from_empty` (spider_shot.py lines
196 to 214): starts from `SpiderShotConfig()` and overrides each field
whose key is present; a stored optional equal to exactly `0.0` is
reinterpreted as `None`. -/
noncomputable def shot_load_config_from_empty (s : Store) : SpiderShotConfig :=
  { shoot_time := match s .shot_shoot_time with
      | some (.f v) => v
      | _ => default_shot_config.shoot_time
    is_target_parent := default_shot_config.is_target_parent
    is_tethered := match s .shot_is_tethered with
      | some (.b v) => v
      | _ => default_shot_config.is_tethered
    tether_width := match s .shot_tether_width with
      | some (.f v) => if v = 0 then none else some v
      | _ => default_shot_config.tether_width
    tether_slack := match s .shot_tether_slack with
      | some (.f v) => if v = 0 then none else some v
      | _ => default_shot_config.tether_slack
    projectile_size := match s .shot_projectile_size with
      | some (.f v) => if v = 0 then none else some v
      | _ => default_shot_config.projectile_size
    projectile_trail_length := match s .shot_projectile_trail_length with
      | some (.f v) => if v = 0 then none else some v
      | _ => default_shot_config.projectile_trail_length }

/-- Embedding of `SpiderSpread.load_config_from_empty` (spider_spread.py
lines 545 to 567): starts from `SpiderSpreadConfig()` and overrides each
field whose key is present; `web_thickness` is never read. -/
noncomputable def spread_load_config_from_empty (s : Store) : SpiderSpreadConfig :=
  { radius := match s .spread_radius with
      | some (.f v) => v
      | _ => default_spread_config.radius
    height := match s .spread_height with
      | some (.f v) => v
      | _ => default_spread_config.height
    spread_time := match s .spread_spread_time with
      | some (.f v) => v
      | _ => default_spread_config.spread_time
    density_spoke := match s .spread_density_spoke with
      | some (.n v) => v.toNat
      | _ => default_spread_config.density_spoke
    density_rib := match s .spread_density_rib with
      | some (.n v) => v.toNat
      | _ => default_spread_config.density_rib
    web_thickness := default_spread_config.web_thickness
    curvature := match s .spread_curvature with
      | some (.f v) => v
      | _ => default_spread_config.curvature
    random_spread_edge := match s .spread_random_spread_edge with
      | some (.f v) => v
      | _ => default_spread_config.random_spread_edge
    random_spread_interior := match s .spread_random_spread_interior with
      | some (.f v) => v
      | _ => default_spread_config.random_spread_interior }

/-- Embedding of
`MESH_OT_update_spider_web_position.load_original_config_from_web`
(src/spider_web_addon/operators.py lines 168 to 186): assembles the full
web config from the three loaders. -/
noncomputable def load_original_config_from_web (s : Store) : SpiderWebConfig :=
  { spider_shot_config := shot_load_config_from_empty s
    spider_spread_config := spread_load_config_from_empty s
    animate_web := match s .web_animate_web with
      | some (.b v) => v
      | _ => true
    start_frame := match s .web_start_frame with
      | some (.n v) => v
      | _ => 1 }

/-- Embedding of `SpiderSpread.load_random_values_from_empty`
(spider_spread.py lines 569 to 589): for each index in range, the entry is
loaded when its key (both keys, for edge entries) is present. -/
def load_random_values_from_empty (s : Store) (density_spoke density_rib : ℕ) :
    List (ℕ × ℝ × ℝ) × List ((ℕ × ℕ) × ℝ) :=
  ((List.range density_spoke).filterMap (fun i =>
      match s (.edge_random_x i), s (.edge_random_y i) with
      | some (.f xv), some (.f yv) => some (i, xv, yv)
      | _, _ => none),
   (List.range density_spoke).flatMap (fun i =>
      (List.range density_rib).filterMap (fun j =>
        match s (.interior_random i j) with
        | some (.f v) => some ((i, j), v)
        | _ => none)))

/-- Python `random.uniform(a, b) = a + (b - a) * random()`, where the unit
draw `u` is the output of `random()`. -/
def py_uniform (lo hi u : ℝ) : ℝ := lo + (hi - lo) * u

/-- Python `random.choice([-1, 1])`, driven by an abstract boolean draw. -/
def py_choice_sign (b : Bool) : ℝ := if b then 1 else -1

/-- Embedding of `SpiderSpread.generate_random_values` (spider_spread.py
lines 33 to 54). The instance dictionaries `edge_random_offsets` and
`interior_random_offsets` are association lists in insertion order; the
`random` module is an abstract stream `u` of unit draws and `c` of sign
draws, consumed at distinct indices in the source's loop order. Values are
generated only when BOTH dictionaries are empty; otherwise both are left
untouched. -/
def generate_random_values (config : SpiderSpreadConfig)
    (edge : List (ℕ × ℝ × ℝ)) (interior : List ((ℕ × ℕ) × ℝ))
    (u : ℕ → ℝ) (c : ℕ → Bool) :
    List (ℕ × ℝ × ℝ) × List ((ℕ × ℕ) × ℝ) :=
  if edge.isEmpty && interior.isEmpty then
    ((List.range config.density_spoke).map (fun i =>
        (i, py_uniform 0 config.random_spread_edge (u (2 * i)) * py_choice_sign (c (2 * i)),
            py_uniform 0 config.random_spread_edge (u (2 * i + 1)) *
              py_choice_sign (c (2 * i + 1)))),
     (List.range config.density_spoke).flatMap (fun i =>
        (List.range config.density_rib).map (fun j =>
          ((i, j),
            py_uniform 0 config.random_spread_interior
                (u (2 * config.density_spoke + i * config.density_rib + j)) *
              py_choice_sign (c (2 * config.density_spoke + i * config.density_rib + j))))))
  else (edge, interior)

/-- Association-list lookup, the embedding of Python `dict` indexing (keys
are unique in every dictionary built by the source). -/
def alist_get? {α β : Type} [DecidableEq α] (l : List (α × β)) (a : α) : Option β :=
  (l.find? (fun p => p.1 = a)).map Prod.snd

/-- The spoke and rib anchor positions computed by
`SpiderSpread.create_spread` (spider_spread.py lines 87 to 166) from an
already-settled ledger. `toTrack d` stands for the host rotation matrix
`d.to_track_quat('Z', 'Y').to_matrix()` applied to a local offset: it is a
deterministic function of the web direction supplied as a parameter.
Returns the web-center position and, per spoke, the spoke position with
its rib positions. -/
noncomputable def spread_positions_core (origin target : Vec3) (config : SpiderSpreadConfig)
    (ledger : List (ℕ × ℝ × ℝ) × List ((ℕ × ℕ) × ℝ))
    (toTrack : Vec3 → Vec3 → Vec3) : Vec3 × List (Vec3 × List Vec3) :=
  let web_center_vec := get_point_offset_from_end origin target config.height
  let web_direction := (target - origin).normalized
  let spoke_step := (2 * Real.pi) / config.density_spoke
  let spoke_position := fun (i : ℕ) =>
    let angle := spoke_step * i
    let offset : Vec3 :=
      ⟨config.radius * Real.cos angle, config.radius * Real.sin angle, config.height⟩
    let offset :=
      match alist_get? ledger.1 i with
      | some (xr, yr) => offset + ⟨xr, yr, 0⟩
      | none => offset
    web_center_vec + toTrack web_direction offset
  (web_center_vec,
   (List.range config.density_spoke).map (fun i =>
     (spoke_position i,
      (List.range config.density_rib).map (fun jm =>
        let j : ℕ := jm + 1
        let t := (j : ℝ) / config.density_rib
        let curved := calculate_curved_position web_center_vec (spoke_position i) origin t
          config.curvature
        match alist_get? ledger.2 (i, j - 1) with
        | some io => curved + io • (spoke_position i - web_center_vec).normalized
        | none => curved))))

/-- Embedding of `SpiderSpread.create_spread` (spider_spread.py lines 87
to 166): first `generate_random_values` settles the ledger (a no-op unless
both maps are empty), then the anchor positions are computed from it. -/
noncomputable def create_spread_positions (origin target : Vec3) (config : SpiderSpreadConfig)
    (edge : List (ℕ × ℝ × ℝ)) (interior : List ((ℕ × ℕ) × ℝ))
    (u : ℕ → ℝ) (c : ℕ → Bool) (toTrack : Vec3 → Vec3 → Vec3) :
    Vec3 × List (Vec3 × List Vec3) :=
  spread_positions_core origin target config
    (generate_random_values config edge interior u c) toTrack

/-- A fully populated edge-offset dictionary over spoke indices 0 to
ds - 1, in the insertion order produced by both `generate_random_values`
and `load_random_values_from_empty`. -/
def full_edge_ledger (ds : ℕ) (fx fy : ℕ → ℝ) : List (ℕ × ℝ × ℝ) :=
  (List.range ds).map (fun i => (i, fx i, fy i))

/-- A fully populated interior-offset dictionary over index pairs (i, j),
i < ds, j < dr, in insertion order. -/
def full_interior_ledger (ds dr : ℕ) (g : ℕ → ℕ → ℝ) : List ((ℕ × ℕ) × ℝ) :=
  (List.range ds).flatMap (fun i => (List.range dr).map (fun j => ((i, j), g i j)))

/-! Basic lemmas about the vector embedding. -/

namespace Vec3

@[simp] theorem zero_x : (0 : Vec3).x = 0 := rfl

@[simp] theorem zero_y : (0 : Vec3).y = 0 := rfl

@[simp] theorem zero_z : (0 : Vec3).z = 0 := rfl

@[simp] theorem add_x (a b : Vec3) : (a + b).x = a.x + b.x := rfl

@[simp] theorem add_y (a b : Vec3) : (a + b).y = a.y + b.y := rfl

@[simp] theorem add_z (a b : Vec3) : (a + b).z = a.z + b.z := rfl

@[simp] theorem sub_x (a b : Vec3) : (a - b).x = a.x - b.x := rfl

@[simp] theorem sub_y (a b : Vec3) : (a - b).y = a.y - b.y := rfl

@[simp] theorem sub_z (a b : Vec3) : (a - b).z = a.z - b.z := rfl

@[simp] theorem smul_x (c : ℝ) (a : Vec3) : (c • a).x = c * a.x := rfl

@[simp] theorem smul_y (c : ℝ) (a : Vec3) : (c • a).y = c * a.y := rfl

@[simp] theorem smul_z (c : ℝ) (a : Vec3) : (c • a).z = c * a.z := rfl

theorem dot_self_nonneg (v : Vec3) : 0 ≤ dot v v := by
  have hx := mul_self_nonneg v.x
  have hy := mul_self_nonneg v.y
  have hz := mul_self_nonneg v.z
  unfold dot; linarith

theorem length_nonneg (v : Vec3) : 0 ≤ length v := Real.sqrt_nonneg _

theorem length_eq_zero_iff (v : Vec3) : length v = 0 ↔ v = 0 := by
  unfold length
  rw [Real.sqrt_eq_zero (dot_self_nonneg v)]
  constructor
  · intro h
    have hx := mul_self_nonneg v.x
    have hy := mul_self_nonneg v.y
    have hz := mul_self_nonneg v.z
    unfold dot at h
    have hx0 : v.x = 0 := mul_self_eq_zero.mp (le_antisymm (by linarith) hx)
    have hy0 : v.y = 0 := mul_self_eq_zero.mp (le_antisymm (by linarith) hy)
    have hz0 : v.z = 0 := mul_self_eq_zero.mp (le_antisymm (by linarith) hz)
    ext <;> simp [hx0, hy0, hz0]
  · intro h
    subst h
    unfold dot
    simp

theorem sub_eq_zero_iff_eq (a b : Vec3) : a - b = 0 ↔ a = b := by
  constructor
  · intro h
    have hx : a.x - b.x = 0 := congrArg Vec3.x h
    have hy : a.y - b.y = 0 := congrArg Vec3.y h
    have hz : a.z - b.z = 0 := congrArg Vec3.z h
    ext
    · linarith
    · linarith
    · linarith
  · intro h; subst h; ext <;> simp

theorem dot_smul_left (c : ℝ) (a b : Vec3) : dot (c • a) b = c * dot a b := by
  unfold dot; simp; ring

theorem dot_smul_right (c : ℝ) (a b : Vec3) : dot a (c • b) = c * dot a b := by
  unfold dot; simp; ring

theorem length_smul (c : ℝ) (v : Vec3) : length (c • v) = |c| * length v := by
  unfold length
  rw [dot_smul_left, dot_smul_right, ← mul_assoc, ← Real.sqrt_mul_self (abs_nonneg c)]
  rw [show |c| * |c| = c * c from by rw [← abs_mul, abs_mul_self]]
  rw [Real.sqrt_mul (by nlinarith [mul_self_nonneg c] : (0:ℝ) ≤ c * c)]

theorem length_normalized (v : Vec3) (h : v ≠ 0) : length (normalized v) = 1 := by
  unfold normalized
  have hl : length v ≠ 0 := fun hc => h ((length_eq_zero_iff v).mp hc)
  have hp : 0 < length v := lt_of_le_of_ne (length_nonneg v) (Ne.symm hl)
  rw [if_neg hl, length_smul]
  rw [abs_of_pos (one_div_pos.mpr hp)]
  field_simp

@[simp] theorem smul_zero_vec (c : ℝ) : c • (0 : Vec3) = 0 := by
  ext <;> simp

@[simp] theorem zero_smul_vec (v : Vec3) : (0 : ℝ) • v = 0 := by
  ext <;> simp

@[simp] theorem sub_zero_vec (v : Vec3) : v - 0 = v := by
  ext <;> simp

theorem lerp_zero (a b : Vec3) : lerp a b 0 = a := by
  unfold lerp
  ext <;> simp

theorem lerp_one (a b : Vec3) : lerp a b 1 = b := by
  unfold lerp
  ext <;> simp

end Vec3

/-- C5: for every pair of 3D points s, e, every reference point r and
every curve amount k, the curve deformation returns exactly the start
point at parameter t = 0 and exactly the end point at t = 1. -/
theorem curve_endpoints (s e r : Vec3) (k : ℝ) :
    calculate_curved_position s e r 0 k = s ∧ calculate_curved_position s e r 1 k = e := by
  constructor
  · unfold calculate_curved_position
    rw [Vec3.lerp_zero]
    norm_num
  · unfold calculate_curved_position
    rw [Vec3.lerp_one]
    norm_num

/-- C6: for every start, end and reference point and every curve amount
k > 0, the magnitude of the displacement of the curved position from the
linear interpolation attains its maximum over t in [0,1] at t = 1/2. -/
theorem curve_extremum (s e r : Vec3) (k t : ℝ) (hk : 0 < k) (h0 : 0 ≤ t) (h1 : t ≤ 1) :
    (calculate_curved_position s e r t k - Vec3.lerp s e t).length ≤
    (calculate_curved_position s e r (1/2 : ℝ) k - Vec3.lerp s e (1/2 : ℝ)).length := by
  have hdisp : ∀ w : ℝ, calculate_curved_position s e r w k - Vec3.lerp s e w =
      (-(((w * w - w) * 4.0 * k) * 0.5)) • (r - (0.5 : ℝ) • (s + e)).normalized := by
    intro w
    unfold calculate_curved_position
    ext <;> simp <;> ring
  rw [hdisp t, hdisp (1/2 : ℝ), Vec3.length_smul, Vec3.length_smul]
  have hL := Vec3.length_nonneg ((r - (0.5 : ℝ) • (s + e)).normalized)
  have h2 : |(-(((t * t - t) * 4.0 * k) * 0.5))| ≤
      |(-((((1/2 : ℝ) * (1/2) - (1/2)) * 4.0 * k) * 0.5))| := by
    rw [abs_neg, abs_neg]
    rw [abs_of_nonpos (by nlinarith [mul_nonneg (mul_nonneg h0 (sub_nonneg.mpr h1)) hk.le] :
      ((t * t - t) * 4.0 * k) * 0.5 ≤ 0)]
    rw [abs_of_nonpos (by nlinarith : (((1/2 : ℝ) * (1/2) - (1/2)) * 4.0 * k) * 0.5 ≤ 0)]
    nlinarith [sq_nonneg (t - 1/2), mul_nonneg (sq_nonneg (t - 1/2)) hk.le]
  exact mul_le_mul_of_nonneg_right h2 hL

/-- Witness for C6 at s = e = r = 0, k = 1, t = 1/4. -/
theorem curve_extremum_witness :
    (calculate_curved_position 0 0 0 (1/4 : ℝ) 1 - Vec3.lerp 0 0 (1/4 : ℝ)).length ≤
    (calculate_curved_position 0 0 0 (1/2 : ℝ) 1 - Vec3.lerp 0 0 (1/2 : ℝ)).length :=
  curve_extremum 0 0 0 1 (1/4) (by norm_num) (by norm_num) (by norm_num)

/-- C7: get_point_offset_from_end returns the origin O when the distance
is at least the segment length, the target T when it is nonpositive, and
otherwise the point on the segment at exactly the given distance from T. -/
theorem point_offset_from_end_spec (O T : Vec3) (h : ℝ) :
    (h ≥ (T - O).length → get_point_offset_from_end O T h = O) ∧
    (h ≤ 0 → get_point_offset_from_end O T h = T) ∧
    (0 < h → h < (T - O).length →
      get_point_offset_from_end O T h = T - h • (T - O).normalized ∧
      (get_point_offset_from_end O T h - T).length = h) := by
  refine ⟨?_, ?_, ?_⟩
  · intro hge
    unfold get_point_offset_from_end
    rw [if_pos hge]
  · intro hle
    unfold get_point_offset_from_end
    by_cases hc : h ≥ (T - O).length
    · rw [if_pos hc]
      have h0 : (T - O).length = 0 :=
        le_antisymm (le_trans hc hle) (Vec3.length_nonneg _)
      have hTO : T = O := (Vec3.sub_eq_zero_iff_eq T O).mp ((Vec3.length_eq_zero_iff _).mp h0)
      exact hTO.symm
    · rw [if_neg hc, if_pos hle]
  · intro hpos hlt
    have hne : ¬ (h ≥ (T - O).length) := not_le.mpr hlt
    have hnle : ¬ (h ≤ 0) := not_le.mpr hpos
    have hval : get_point_offset_from_end O T h = T - h • (T - O).normalized := by
      unfold get_point_offset_from_end
      rw [if_neg hne, if_neg hnle]
    refine ⟨hval, ?_⟩
    have hTO : T - O ≠ 0 := by
      intro hc
      have hz := (Vec3.length_eq_zero_iff (T - O)).mpr hc
      rw [hz] at hlt
      linarith
    have hn1 : (T - O).normalized.length = 1 := Vec3.length_normalized _ hTO
    have hshift : T - h • (T - O).normalized - T = (-h) • (T - O).normalized := by
      ext <;> simp
    rw [hval, hshift, Vec3.length_smul, hn1, mul_one, abs_neg, abs_of_pos hpos]

/-- Witness for C7 at O = (0,0,0), T = (2,0,0) with distances 3, -1 and 1. -/
theorem point_offset_from_end_witness :
    get_point_offset_from_end ⟨0,0,0⟩ ⟨2,0,0⟩ 3 = ⟨0,0,0⟩ ∧
    get_point_offset_from_end ⟨0,0,0⟩ ⟨2,0,0⟩ (-1) = ⟨2,0,0⟩ ∧
    (get_point_offset_from_end ⟨0,0,0⟩ ⟨2,0,0⟩ 1 - ⟨2,0,0⟩).length = 1 := by
  have h4 : ((⟨2,0,0⟩ : Vec3) - ⟨0,0,0⟩).length = Real.sqrt 4 := by
    unfold Vec3.length Vec3.dot
    norm_num
  have hlen : ((⟨2,0,0⟩ : Vec3) - ⟨0,0,0⟩).length = 2 := by
    rw [h4, show (4 : ℝ) = 2 ^ 2 by norm_num, Real.sqrt_sq (by norm_num : (0:ℝ) ≤ 2)]
  refine ⟨(point_offset_from_end_spec ⟨0,0,0⟩ ⟨2,0,0⟩ 3).1 (by rw [ge_iff_le, hlen]; norm_num),
    (point_offset_from_end_spec ⟨0,0,0⟩ ⟨2,0,0⟩ (-1)).2.1 (by norm_num),
    ((point_offset_from_end_spec ⟨0,0,0⟩ ⟨2,0,0⟩ 1).2.2 (by norm_num)
      (by rw [hlen]; norm_num)).2⟩

/-- C1 counterexample: the frame conversion truncates rather than rounds:
with shoot_time 0.9 s at 24 fps the code yields int(21.6) = 21 frames
while round(21.6) = 22. -/
theorem duration_frames_not_round :
    duration_frames (9/10 : ℝ) 24 1 ≠ round ((9/10 : ℝ) * (24 / 1)) := by
  have h1 : duration_frames (9/10 : ℝ) 24 1 = 21 := by
    unfold duration_frames pyInt
    rw [if_pos (by norm_num : (0:ℝ) ≤ (9/10 : ℝ) * (24 / 1))]
    rw [Int.floor_eq_iff]
    norm_num
  have h2 : round ((9/10 : ℝ) * (24 / 1)) = 22 := by
    rw [round_eq]
    rw [show (9/10 : ℝ) * (24 / 1) + 1/2 = 221/10 by norm_num]
    rw [Int.floor_eq_iff]
    norm_num
  rw [h1, h2]
  decide

/-- C1 amended: the scheduler converts seconds to frames by truncation,
durationFrames(seconds) = floor(seconds * frameRate) for nonnegative
inputs; with fps = 24, fpsBase = 1, shootTime = 1.0 s and startFrame = 1
the shot spans frames [1, 25] and the spread's first keyframe is at frame
25. -/
theorem duration_frames_floor_and_schedule (s fps base : ℝ) (hs : 0 ≤ s)
    (hf : 0 ≤ fps / base) :
    duration_frames s fps base = ⌊s * (fps / base)⌋ ∧
    tether_end_frame 1 1 24 1 = 25 ∧
    spread_start_frame 1 1 24 1 = 25 := by
  have hconv : pyInt ((1:ℝ) * (24 / 1)) = 24 := by
    unfold pyInt
    rw [if_pos (by norm_num : (0:ℝ) ≤ (1:ℝ) * (24 / 1))]
    rw [Int.floor_eq_iff]
    norm_num
  refine ⟨?_, ?_, ?_⟩
  · unfold duration_frames pyInt
    rw [if_pos (mul_nonneg hs hf)]
  · unfold tether_end_frame duration_frames
    rw [hconv]
    norm_num
  · unfold spread_start_frame
    rw [hconv]
    norm_num

/-- Witness for the amended C1 at seconds = 1, fps = 24, fpsBase = 1. -/
theorem duration_frames_floor_and_schedule_witness :
    duration_frames 1 24 1 = ⌊(1 : ℝ) * (24 / 1)⌋ ∧
    tether_end_frame 1 1 24 1 = 25 ∧
    spread_start_frame 1 1 24 1 = 25 :=
  duration_frames_floor_and_schedule 1 24 1 (by norm_num) (by norm_num)

/-- C2 counterexample: constructing a spread config with density_spoke =
100 (outside [3,64]) succeeds with no error raised, while the spec-side
validating constructor rejects the same input. -/
theorem spread_config_out_of_range_succeeds :
    (mkSpiderSpreadConfig 1.0 0.25 1.0 100 3 0.01 0.1 0.1 0.05).density_spoke = 100 ∧
    specMkSpiderSpreadConfig 1.0 0.25 1.0 100 3 0.01 0.1 0.1 0.05 =
      .error ConfigValidationError.outOfRange := by
  refine ⟨rfl, ?_⟩
  unfold specMkSpiderSpreadConfig
  rw [if_neg]
  intro hc
  exact absurd hc.2.2.2.2.1 (by norm_num)

/-- C2 amended: the dataclass constructors perform no range validation:
for any numeric values, inside or outside the documented bounds,
construction succeeds and returns exactly the given field values (for the
shot config, after the post-init fills; no ConfigValidationError exists in
the code). -/
theorem config_construction_never_fails (radius height spread_time : ℝ)
    (ds dr : ℕ) (wt cu re ri : ℝ) (st : ℝ) (itp itd : Bool)
    (tw ts ps pt : Option ℝ) (aw : Bool) (sf : ℤ) :
    (mkSpiderSpreadConfig radius height spread_time ds dr wt cu re ri).radius = radius ∧
    (mkSpiderSpreadConfig radius height spread_time ds dr wt cu re ri).density_spoke = ds ∧
    (mkSpiderSpreadConfig radius height spread_time ds dr wt cu re ri).density_rib = dr ∧
    (mkSpiderSpreadConfig radius height spread_time ds dr wt cu re ri).curvature = cu ∧
    (mkSpiderShotConfig st itp itd tw ts ps pt).shoot_time = st ∧
    (SpiderWebConfig.mk (mkSpiderShotConfig st itp itd tw ts ps pt)
      (mkSpiderSpreadConfig radius height spread_time ds dr wt cu re ri) aw sf).start_frame
      = sf := by
  refine ⟨rfl, rfl, rfl, rfl, ?_, rfl⟩
  unfold mkSpiderShotConfig
  cases itd <;> rfl

/-- C3 counterexample: a shot config built with is_tethered = true leaves
the inactive projectile fields as None (both through the panel path
to_config and directly), rather than filling them with a default. -/
theorem inactive_branch_left_none :
    (shot_props_to_config 1.0 false true 0.02 0.05 0.1 0.5).projectile_size = none ∧
    (mkSpiderShotConfig 1.0 false true none none none none).projectile_trail_length =
      none := by
  constructor <;> rfl

/-- C3 amended: post-init normalization fills the ACTIVE branch's missing
fields with defaults (tether_width 0.02 and tether_slack 0.05 when
tethered, projectile_size 0.02 and projectile_trail_length 0.5
otherwise); the inactive branch is passed through unchanged and may stay
None, and downstream persistence observes None and substitutes an
explicit fallback (here projectile_size stored as 0.5). -/
theorem post_init_fills_active_branch (st : ℝ) (itp : Bool) (tw ts ps pt : Option ℝ) :
    (mkSpiderShotConfig st itp true tw ts ps pt =
      { shoot_time := st, is_target_parent := itp, is_tethered := true,
        tether_width := some (tw.getD 0.02), tether_slack := some (ts.getD 0.05),
        projectile_size := ps, projectile_trail_length := pt }) ∧
    (mkSpiderShotConfig st itp false tw ts ps pt =
      { shoot_time := st, is_target_parent := itp, is_tethered := false,
        tether_width := tw, tether_slack := ts,
        projectile_size := some (ps.getD 0.02),
        projectile_trail_length := some (pt.getD 0.5) }) ∧
    (shot_store_config_on_empty (mkSpiderShotConfig st itp true tw ts none none)
        Store.empty) PKey.shot_projectile_size = some (.f 0.5) :=
  ⟨rfl, rfl, rfl⟩

/-! Lookup lemmas for the persisted configuration keys. -/

theorem store_interior_entries_apply_ne (interior : List ((ℕ × ℕ) × ℝ)) (s : Store)
    (k : PKey) (hk : k.isLedgerKey = false) :
    store_interior_entries interior s k = s k := by
  induction interior generalizing s with
  | nil => rfl
  | cons p t ih =>
    show store_interior_entries t (Store.set s _ _) k = s k
    rw [ih]
    unfold Store.set
    rw [if_neg]
    intro heq
    rw [heq] at hk
    simp [PKey.isLedgerKey] at hk

theorem store_edge_entries_apply_ne (edge : List (ℕ × ℝ × ℝ)) (s : Store)
    (k : PKey) (hk : k.isLedgerKey = false) :
    store_edge_entries edge s k = s k := by
  induction edge generalizing s with
  | nil => rfl
  | cons p t ih =>
    show store_edge_entries t (Store.set (Store.set s _ _) _ _) k = s k
    rw [ih]
    unfold Store.set
    rw [if_neg, if_neg]
    · intro heq
      rw [heq] at hk
      simp [PKey.isLedgerKey] at hk
    · intro heq
      rw [heq] at hk
      simp [PKey.isLedgerKey] at hk

theorem spread_store_random_values_apply_ne (edge : List (ℕ × ℝ × ℝ))
    (interior : List ((ℕ × ℕ) × ℝ)) (s : Store) (k : PKey)
    (hk : k.isLedgerKey = false) :
    spread_store_random_values_on_empty edge interior s k = s k := by
  unfold spread_store_random_values_on_empty
  rw [store_interior_entries_apply_ne _ _ _ hk, store_edge_entries_apply_ne _ _ _ hk]

theorem lookup_shot_shoot_time (c : SpiderWebConfig) (edge : List (ℕ × ℝ × ℝ))
    (interior : List ((ℕ × ℕ) × ℝ)) :
    store_config_on_empty c edge interior Store.empty PKey.shot_shoot_time =
      some (.f c.spider_shot_config.shoot_time) := by
  simp [store_config_on_empty, web_store_config_on_empty, spread_store_config_on_empty,
    shot_store_config_on_empty, Store.set, spread_store_random_values_apply_ne,
    PKey.isLedgerKey]

theorem lookup_shot_is_tethered (c : SpiderWebConfig) (edge : List (ℕ × ℝ × ℝ))
    (interior : List ((ℕ × ℕ) × ℝ)) :
    store_config_on_empty c edge interior Store.empty PKey.shot_is_tethered =
      some (.b c.spider_shot_config.is_tethered) := by
  simp [store_config_on_empty, web_store_config_on_empty, spread_store_config_on_empty,
    shot_store_config_on_empty, Store.set, spread_store_random_values_apply_ne,
    PKey.isLedgerKey]

theorem lookup_shot_tether_width (c : SpiderWebConfig) (edge : List (ℕ × ℝ × ℝ))
    (interior : List ((ℕ × ℕ) × ℝ)) :
    store_config_on_empty c edge interior Store.empty PKey.shot_tether_width =
      some (.f (c.spider_shot_config.tether_width.getD 0.1)) := by
  simp [store_config_on_empty, web_store_config_on_empty, spread_store_config_on_empty,
    shot_store_config_on_empty, Store.set, spread_store_random_values_apply_ne,
    PKey.isLedgerKey]

theorem lookup_shot_tether_slack (c : SpiderWebConfig) (edge : List (ℕ × ℝ × ℝ))
    (interior : List ((ℕ × ℕ) × ℝ)) :
    store_config_on_empty c edge interior Store.empty PKey.shot_tether_slack =
      some (.f (c.spider_shot_config.tether_slack.getD 0.05)) := by
  simp [store_config_on_empty, web_store_config_on_empty, spread_store_config_on_empty,
    shot_store_config_on_empty, Store.set, spread_store_random_values_apply_ne,
    PKey.isLedgerKey]

theorem lookup_shot_projectile_size (c : SpiderWebConfig) (edge : List (ℕ × ℝ × ℝ))
    (interior : List ((ℕ × ℕ) × ℝ)) :
    store_config_on_empty c edge interior Store.empty PKey.shot_projectile_size =
      some (.f (c.spider_shot_config.projectile_size.getD 0.5)) := by
  simp [store_config_on_empty, web_store_config_on_empty, spread_store_config_on_empty,
    shot_store_config_on_empty, Store.set, spread_store_random_values_apply_ne,
    PKey.isLedgerKey]

theorem lookup_shot_projectile_trail_length (c : SpiderWebConfig) (edge : List (ℕ × ℝ × ℝ))
    (interior : List ((ℕ × ℕ) × ℝ)) :
    store_config_on_empty c edge interior Store.empty PKey.shot_projectile_trail_length =
      some (.f (c.spider_shot_config.projectile_trail_length.getD 1.0)) := by
  simp [store_config_on_empty, web_store_config_on_empty, spread_store_config_on_empty,
    shot_store_config_on_empty, Store.set, spread_store_random_values_apply_ne,
    PKey.isLedgerKey]

theorem lookup_spread_radius (c : SpiderWebConfig) (edge : List (ℕ × ℝ × ℝ))
    (interior : List ((ℕ × ℕ) × ℝ)) :
    store_config_on_empty c edge interior Store.empty PKey.spread_radius =
      some (.f c.spider_spread_config.radius) := by
  simp [store_config_on_empty, web_store_config_on_empty, spread_store_config_on_empty,
    shot_store_config_on_empty, Store.set, spread_store_random_values_apply_ne,
    PKey.isLedgerKey]

theorem lookup_spread_height (c : SpiderWebConfig) (edge : List (ℕ × ℝ × ℝ))
    (interior : List ((ℕ × ℕ) × ℝ)) :
    store_config_on_empty c edge interior Store.empty PKey.spread_height =
      some (.f c.spider_spread_config.height) := by
  simp [store_config_on_empty, web_store_config_on_empty, spread_store_config_on_empty,
    shot_store_config_on_empty, Store.set, spread_store_random_values_apply_ne,
    PKey.isLedgerKey]

theorem lookup_spread_spread_time (c : SpiderWebConfig) (edge : List (ℕ × ℝ × ℝ))
    (interior : List ((ℕ × ℕ) × ℝ)) :
    store_config_on_empty c edge interior Store.empty PKey.spread_spread_time =
      some (.f c.spider_spread_config.spread_time) := by
  simp [store_config_on_empty, web_store_config_on_empty, spread_store_config_on_empty,
    shot_store_config_on_empty, Store.set, spread_store_random_values_apply_ne,
    PKey.isLedgerKey]

theorem lookup_spread_density_spoke (c : SpiderWebConfig) (edge : List (ℕ × ℝ × ℝ))
    (interior : List ((ℕ × ℕ) × ℝ)) :
    store_config_on_empty c edge interior Store.empty PKey.spread_density_spoke =
      some (.n c.spider_spread_config.density_spoke) := by
  simp [store_config_on_empty, web_store_config_on_empty, spread_store_config_on_empty,
    shot_store_config_on_empty, Store.set, spread_store_random_values_apply_ne,
    PKey.isLedgerKey]

theorem lookup_spread_density_rib (c : SpiderWebConfig) (edge : List (ℕ × ℝ × ℝ))
    (interior : List ((ℕ × ℕ) × ℝ)) :
    store_config_on_empty c edge interior Store.empty PKey.spread_density_rib =
      some (.n c.spider_spread_config.density_rib) := by
  simp [store_config_on_empty, web_store_config_on_empty, spread_store_config_on_empty,
    shot_store_config_on_empty, Store.set, spread_store_random_values_apply_ne,
    PKey.isLedgerKey]

theorem lookup_spread_curvature (c : SpiderWebConfig) (edge : List (ℕ × ℝ × ℝ))
    (interior : List ((ℕ × ℕ) × ℝ)) :
    store_config_on_empty c edge interior Store.empty PKey.spread_curvature =
      some (.f c.spider_spread_config.curvature) := by
  simp [store_config_on_empty, web_store_config_on_empty, spread_store_config_on_empty,
    shot_store_config_on_empty, Store.set, spread_store_random_values_apply_ne,
    PKey.isLedgerKey]

theorem lookup_spread_random_spread_edge (c : SpiderWebConfig) (edge : List (ℕ × ℝ × ℝ))
    (interior : List ((ℕ × ℕ) × ℝ)) :
    store_config_on_empty c edge interior Store.empty PKey.spread_random_spread_edge =
      some (.f c.spider_spread_config.random_spread_edge) := by
  simp [store_config_on_empty, web_store_config_on_empty, spread_store_config_on_empty,
    shot_store_config_on_empty, Store.set, spread_store_random_values_apply_ne,
    PKey.isLedgerKey]

theorem lookup_spread_random_spread_interior (c : SpiderWebConfig) (edge : List (ℕ × ℝ × ℝ))
    (interior : List ((ℕ × ℕ) × ℝ)) :
    store_config_on_empty c edge interior Store.empty PKey.spread_random_spread_interior =
      some (.f c.spider_spread_config.random_spread_interior) := by
  simp [store_config_on_empty, web_store_config_on_empty, spread_store_config_on_empty,
    shot_store_config_on_empty, Store.set, spread_store_random_values_apply_ne,
    PKey.isLedgerKey]

theorem lookup_web_animate_web (c : SpiderWebConfig) (edge : List (ℕ × ℝ × ℝ))
    (interior : List ((ℕ × ℕ) × ℝ)) :
    store_config_on_empty c edge interior Store.empty PKey.web_animate_web =
      some (.b c.animate_web) := by
  simp [store_config_on_empty, web_store_config_on_empty, spread_store_config_on_empty,
    shot_store_config_on_empty, Store.set, spread_store_random_values_apply_ne,
    PKey.isLedgerKey]

theorem lookup_web_start_frame (c : SpiderWebConfig) (edge : List (ℕ × ℝ × ℝ))
    (interior : List ((ℕ × ℕ) × ℝ)) :
    store_config_on_empty c edge interior Store.empty PKey.web_start_frame =
      some (.n c.start_frame) := by
  simp [store_config_on_empty, web_store_config_on_empty, spread_store_config_on_empty,
    shot_store_config_on_empty, Store.set, spread_store_random_values_apply_ne,
    PKey.isLedgerKey]

/-- C4 counterexample: web_thickness is never persisted (and never read
back), so a config with web_thickness = 0.5 decodes to the dataclass
default 0.01 after a store/load round trip; web_thickness is not one of
the inactive tagged-union fields covered by the documented exception. -/
theorem config_roundtrip_loses_web_thickness :
    (load_original_config_from_web
        (store_config_on_empty
          (SpiderWebConfig.mk
            (mkSpiderShotConfig 1.0 false true none none (some 0.1) (some 0.5))
            (mkSpiderSpreadConfig 1.0 0.25 1.0 5 3 0.5 0.1 0.1 0.05) true 1)
          [] [] Store.empty)).spider_spread_config.web_thickness ≠
    (mkSpiderSpreadConfig 1.0 0.25 1.0 5 3 0.5 0.1 0.1 0.05).web_thickness := by
  norm_num [load_original_config_from_web, spread_load_config_from_empty,
    default_spread_config, mkSpiderSpreadConfig]

/-- C4 amended: a store/load round trip reproduces every PERSISTED field
of the config exactly, provided the four optional shot fields are present
with nonzero values; web_thickness and is_target_parent are simply not
persisted and decode to their dataclass defaults (0.01 and False), and a
stored optional equal to exactly 0.0 is reinterpreted as None on load
(while a None optional is stored as a nonzero per-field fallback, not as
0.0). -/
theorem config_roundtrip (c : SpiderWebConfig)
    (edge : List (ℕ × ℝ × ℝ)) (interior : List ((ℕ × ℕ) × ℝ))
    (htw : ∃ v : ℝ, c.spider_shot_config.tether_width = some v ∧ v ≠ 0)
    (hts : ∃ v : ℝ, c.spider_shot_config.tether_slack = some v ∧ v ≠ 0)
    (hps : ∃ v : ℝ, c.spider_shot_config.projectile_size = some v ∧ v ≠ 0)
    (hpt : ∃ v : ℝ, c.spider_shot_config.projectile_trail_length = some v ∧ v ≠ 0) :
    load_original_config_from_web (store_config_on_empty c edge interior Store.empty) =
      { spider_shot_config :=
          { c.spider_shot_config with is_target_parent := false }
        spider_spread_config :=
          { c.spider_spread_config with
            web_thickness := default_spread_config.web_thickness }
        animate_web := c.animate_web
        start_frame := c.start_frame } := by
  obtain ⟨tw, htw1, htw2⟩ := htw
  obtain ⟨ts, hts1, hts2⟩ := hts
  obtain ⟨ps, hps1, hps2⟩ := hps
  obtain ⟨pt, hpt1, hpt2⟩ := hpt
  unfold load_original_config_from_web shot_load_config_from_empty
    spread_load_config_from_empty
  rw [lookup_shot_shoot_time, lookup_shot_is_tethered, lookup_shot_tether_width,
    lookup_shot_tether_slack, lookup_shot_projectile_size,
    lookup_shot_projectile_trail_length, lookup_spread_radius, lookup_spread_height,
    lookup_spread_spread_time, lookup_spread_density_spoke, lookup_spread_density_rib,
    lookup_spread_curvature, lookup_spread_random_spread_edge,
    lookup_spread_random_spread_interior, lookup_web_animate_web,
    lookup_web_start_frame]
  rw [htw1, hts1, hps1, hpt1]
  simp only [Option.getD_some]
  rw [if_neg htw2, if_neg hts2, if_neg hps2, if_neg hpt2]
  rw [← htw1, ← hts1, ← hps1, ← hpt1]
  simp [SpiderWebConfig.mk.injEq, SpiderShotConfig.mk.injEq, SpiderSpreadConfig.mk.injEq,
    default_shot_config, mkSpiderShotConfig]

/-- Witness for the amended C4 on a concrete fully populated config. -/
theorem config_roundtrip_witness :
    load_original_config_from_web
      (store_config_on_empty
        (SpiderWebConfig.mk
          (mkSpiderShotConfig 2 true true (some 0.3) (some 0.4) (some 0.6) (some 0.7))
          (mkSpiderSpreadConfig 2 0.5 1.5 6 4 0.02 0.2 0.3 0.4) false 7)
        [] [] Store.empty) =
      { spider_shot_config :=
          { (mkSpiderShotConfig 2 true true (some 0.3) (some 0.4) (some 0.6) (some 0.7)) with
            is_target_parent := false }
        spider_spread_config :=
          { (mkSpiderSpreadConfig 2 0.5 1.5 6 4 0.02 0.2 0.3 0.4) with
            web_thickness := default_spread_config.web_thickness }
        animate_web := false
        start_frame := 7 } :=
  config_roundtrip
    (SpiderWebConfig.mk
      (mkSpiderShotConfig 2 true true (some 0.3) (some 0.4) (some 0.6) (some 0.7))
      (mkSpiderSpreadConfig 2 0.5 1.5 6 4 0.02 0.2 0.3 0.4) false 7)
    [] []
    ⟨0.3, rfl, by norm_num⟩ ⟨0.4, rfl, by norm_num⟩
    ⟨0.6, rfl, by norm_num⟩ ⟨0.7, rfl, by norm_num⟩


/-! Lemmas for the ledger round trip. -/

theorem filterMap_eq_map_of {A B : Type} (l : List A) (F : A → Option B) (G : A → B)
    (h : ∀ a ∈ l, F a = some (G a)) : l.filterMap F = l.map G := by
  induction l with
  | nil => rfl
  | cons a t ih =>
    rw [List.filterMap_cons, h a (by simp), List.map_cons,
      ih (fun b hb => h b (by simp [hb]))]

theorem flatMap_congr_of {A B : Type} (l : List A) (f g : A → List B)
    (h : ∀ a ∈ l, f a = g a) : l.flatMap f = l.flatMap g := by
  induction l with
  | nil => rfl
  | cons a t ih =>
    rw [List.flatMap_cons, List.flatMap_cons, h a (by simp),
      ih (fun b hb => h b (by simp [hb]))]

theorem store_edge_entries_append (l1 l2 : List (ℕ × ℝ × ℝ)) (s : Store) :
    store_edge_entries (l1 ++ l2) s = store_edge_entries l2 (store_edge_entries l1 s) := by
  unfold store_edge_entries
  rw [List.foldl_append]

theorem store_interior_entries_append (l1 l2 : List ((ℕ × ℕ) × ℝ)) (s : Store) :
    store_interior_entries (l1 ++ l2) s =
      store_interior_entries l2 (store_interior_entries l1 s) := by
  unfold store_interior_entries
  rw [List.foldl_append]

theorem store_interior_entries_apply_edge_x (l : List ((ℕ × ℕ) × ℝ)) (s : Store) (i : ℕ) :
    store_interior_entries l s (.edge_random_x i) = s (.edge_random_x i) := by
  induction l generalizing s with
  | nil => rfl
  | cons p t ih =>
    show store_interior_entries t (Store.set s _ _) (.edge_random_x i) = _
    rw [ih]
    unfold Store.set
    rw [if_neg (by simp)]

theorem store_interior_entries_apply_edge_y (l : List ((ℕ × ℕ) × ℝ)) (s : Store) (i : ℕ) :
    store_interior_entries l s (.edge_random_y i) = s (.edge_random_y i) := by
  induction l generalizing s with
  | nil => rfl
  | cons p t ih =>
    show store_interior_entries t (Store.set s _ _) (.edge_random_y i) = _
    rw [ih]
    unfold Store.set
    rw [if_neg (by simp)]

theorem full_edge_ledger_succ (n : ℕ) (fx fy : ℕ → ℝ) :
    full_edge_ledger (n + 1) fx fy = full_edge_ledger n fx fy ++ [(n, fx n, fy n)] := by
  unfold full_edge_ledger
  rw [List.range_succ, List.map_append]
  rfl

theorem store_edge_entries_full_x (ds : ℕ) (fx fy : ℕ → ℝ) (s : Store) (i : ℕ)
    (hi : i < ds) :
    store_edge_entries (full_edge_ledger ds fx fy) s (.edge_random_x i) =
      some (.f (fx i)) := by
  induction ds generalizing s with
  | zero => exact absurd hi (by omega)
  | succ n ih =>
    rw [full_edge_ledger_succ, store_edge_entries_append]
    show (Store.set (Store.set (store_edge_entries (full_edge_ledger n fx fy) s)
      (.edge_random_x n) (.f (fx n))) (.edge_random_y n) (.f (fy n)))
      (.edge_random_x i) = some (.f (fx i))
    unfold Store.set
    rw [if_neg (by simp)]
    by_cases hin : i = n
    · subst hin
      rw [if_pos rfl]
    · rw [if_neg (by simp [hin])]
      exact ih s (by omega)

theorem store_edge_entries_full_y (ds : ℕ) (fx fy : ℕ → ℝ) (s : Store) (i : ℕ)
    (hi : i < ds) :
    store_edge_entries (full_edge_ledger ds fx fy) s (.edge_random_y i) =
      some (.f (fy i)) := by
  induction ds generalizing s with
  | zero => exact absurd hi (by omega)
  | succ n ih =>
    rw [full_edge_ledger_succ, store_edge_entries_append]
    show (Store.set (Store.set (store_edge_entries (full_edge_ledger n fx fy) s)
      (.edge_random_x n) (.f (fx n))) (.edge_random_y n) (.f (fy n)))
      (.edge_random_y i) = some (.f (fy i))
    unfold Store.set
    by_cases hin : i = n
    · subst hin
      rw [if_pos rfl]
    · rw [if_neg (by simp [hin]), if_neg (by simp)]
      exact ih s (by omega)

theorem store_interior_entries_row_hit (dr : ℕ) (r : ℕ) (g : ℕ → ℕ → ℝ) (s : Store)
    (j : ℕ) (hj : j < dr) :
    store_interior_entries ((List.range dr).map (fun j2 => ((r, j2), g r j2))) s
      (.interior_random r j) = some (.f (g r j)) := by
  induction dr generalizing s with
  | zero => exact absurd hj (by omega)
  | succ n ih =>
    rw [List.range_succ, List.map_append, store_interior_entries_append]
    show (Store.set (store_interior_entries ((List.range n).map _) s)
      (.interior_random r n) (.f (g r n))) (.interior_random r j) = some (.f (g r j))
    unfold Store.set
    by_cases hjn : j = n
    · subst hjn
      rw [if_pos rfl]
    · rw [if_neg (by simp [hjn])]
      exact ih s (by omega)

theorem store_interior_entries_row_miss (dr : ℕ) (r : ℕ) (g : ℕ → ℕ → ℝ) (s : Store)
    (i j : ℕ) (hir : i ≠ r) :
    store_interior_entries ((List.range dr).map (fun j2 => ((r, j2), g r j2))) s
      (.interior_random i j) = s (.interior_random i j) := by
  induction dr generalizing s with
  | zero => rfl
  | succ n ih =>
    rw [List.range_succ, List.map_append, store_interior_entries_append]
    show (Store.set (store_interior_entries ((List.range n).map _) s)
      (.interior_random r n) (.f (g r n))) (.interior_random i j) = s (.interior_random i j)
    unfold Store.set
    rw [if_neg (by simp [hir])]
    exact ih s

theorem full_interior_ledger_succ (n dr : ℕ) (g : ℕ → ℕ → ℝ) :
    full_interior_ledger (n + 1) dr g =
      full_interior_ledger n dr g ++ (List.range dr).map (fun j => ((n, j), g n j)) := by
  unfold full_interior_ledger
  rw [List.range_succ, List.flatMap_append]
  simp

theorem store_interior_entries_full (ds dr : ℕ) (g : ℕ → ℕ → ℝ) (s : Store) (i j : ℕ)
    (hi : i < ds) (hj : j < dr) :
    store_interior_entries (full_interior_ledger ds dr g) s (.interior_random i j) =
      some (.f (g i j)) := by
  induction ds generalizing s with
  | zero => exact absurd hi (by omega)
  | succ n ih =>
    rw [full_interior_ledger_succ, store_interior_entries_append]
    by_cases hin : i = n
    · subst hin
      exact store_interior_entries_row_hit dr i g _ j hj
    · rw [store_interior_entries_row_miss dr n g _ i j hin]
      exact ih s (by omega)

/-- C9: serializing a fully populated ledger to flat indexed entries and
deserializing with the same densities reproduces the ledger exactly. -/
theorem ledger_roundtrip (ds dr : ℕ) (fx fy : ℕ → ℝ) (g : ℕ → ℕ → ℝ)
    (h3 : 3 ≤ ds) (h64 : ds ≤ 64) (h1 : 1 ≤ dr) (h32 : dr ≤ 32) :
    load_random_values_from_empty
      (spread_store_random_values_on_empty (full_edge_ledger ds fx fy)
        (full_interior_ledger ds dr g) Store.empty) ds dr =
      (full_edge_ledger ds fx fy, full_interior_ledger ds dr g) := by
  have hex : ∀ i : ℕ, i < ds →
      spread_store_random_values_on_empty (full_edge_ledger ds fx fy)
        (full_interior_ledger ds dr g) Store.empty (.edge_random_x i) =
        some (.f (fx i)) := by
    intro i hi
    unfold spread_store_random_values_on_empty
    rw [store_interior_entries_apply_edge_x]
    exact store_edge_entries_full_x ds fx fy _ i hi
  have hey : ∀ i : ℕ, i < ds →
      spread_store_random_values_on_empty (full_edge_ledger ds fx fy)
        (full_interior_ledger ds dr g) Store.empty (.edge_random_y i) =
        some (.f (fy i)) := by
    intro i hi
    unfold spread_store_random_values_on_empty
    rw [store_interior_entries_apply_edge_y]
    exact store_edge_entries_full_y ds fx fy _ i hi
  have hint : ∀ i : ℕ, i < ds → ∀ j : ℕ, j < dr →
      spread_store_random_values_on_empty (full_edge_ledger ds fx fy)
        (full_interior_ledger ds dr g) Store.empty (.interior_random i j) =
        some (.f (g i j)) := by
    intro i hi j hj
    unfold spread_store_random_values_on_empty
    exact store_interior_entries_full ds dr g _ i j hi hj
  unfold load_random_values_from_empty
  rw [Prod.mk.injEq]
  constructor
  · rw [filterMap_eq_map_of _ _ (fun i => (i, fx i, fy i))]
    · rfl
    · intro i hi
      have hi2 := List.mem_range.mp hi
      show (match spread_store_random_values_on_empty (full_edge_ledger ds fx fy)
          (full_interior_ledger ds dr g) Store.empty (.edge_random_x i),
        spread_store_random_values_on_empty (full_edge_ledger ds fx fy)
          (full_interior_ledger ds dr g) Store.empty (.edge_random_y i) with
        | some (.f xv), some (.f yv) => some (i, xv, yv)
        | _, _ => none) = some (i, fx i, fy i)
      rw [hex i hi2, hey i hi2]
  · rw [flatMap_congr_of _ _ (fun i => (List.range dr).map (fun j => ((i, j), g i j)))]
    · rfl
    · intro i hi
      have hi2 := List.mem_range.mp hi
      rw [filterMap_eq_map_of _ _ (fun j => ((i, j), g i j))]
      intro j hj
      have hj2 := List.mem_range.mp hj
      show (match spread_store_random_values_on_empty (full_edge_ledger ds fx fy)
          (full_interior_ledger ds dr g) Store.empty (.interior_random i j) with
        | some (.f v) => some ((i, j), v)
        | _ => none) = some ((i, j), g i j)
      rw [hint i hi2 j hj2]

/-- Witness for C9 at ds = 3, dr = 1 with concrete value functions. -/
theorem ledger_roundtrip_witness :
    load_random_values_from_empty
      (spread_store_random_values_on_empty
        (full_edge_ledger 3 (fun i => i) (fun i => 2 * i))
        (full_interior_ledger 3 1 (fun i j => i + j)) Store.empty) 3 1 =
      (full_edge_ledger 3 (fun i => i) (fun i => 2 * i),
       full_interior_ledger 3 1 (fun i j => i + j)) :=
  ledger_roundtrip 3 1 (fun i => i) (fun i => 2 * i) (fun i j => i + j)
    (by norm_num) (by norm_num) (by norm_num) (by norm_num)


/-! Lemmas for ledger generation and layout determinism. -/

theorem generate_unchanged (config : SpiderSpreadConfig)
    (edge : List (ℕ × ℝ × ℝ)) (interior : List ((ℕ × ℕ) × ℝ))
    (u : ℕ → ℝ) (c : ℕ → Bool) (h : ¬(edge = [] ∧ interior = [])) :
    generate_random_values config edge interior u c = (edge, interior) := by
  unfold generate_random_values
  rw [if_neg]
  intro hb
  rw [Bool.and_eq_true] at hb
  exact h ⟨List.isEmpty_iff.mp hb.1, List.isEmpty_iff.mp hb.2⟩

theorem draw_abs_le (p u1 : ℝ) (b : Bool) (hp : 0 ≤ p) (h0 : 0 ≤ u1) (h1 : u1 ≤ 1) :
    |py_uniform 0 p u1 * py_choice_sign b| ≤ p := by
  unfold py_uniform py_choice_sign
  have hval : |(0 + (p - 0) * u1)| ≤ p := by
    rw [abs_of_nonneg (by nlinarith)]
    nlinarith
  cases b
  · rw [if_neg (by simp), mul_neg_one, abs_neg]
    exact hval
  · rw [if_pos rfl, mul_one]
    exact hval

/-- C10: ledger generation is gated on both maps being empty: if either
map has any entry, both are left completely unchanged; only when both are
empty does it populate an edge offset pair for every spoke index and an
interior offset for every (spoke, rib) index pair, each with magnitude at
most the corresponding randomness parameter. -/
theorem generate_random_values_spec (config : SpiderSpreadConfig)
    (edge : List (ℕ × ℝ × ℝ)) (interior : List ((ℕ × ℕ) × ℝ))
    (u : ℕ → ℝ) (c : ℕ → Bool)
    (hu : ∀ n, 0 ≤ u n ∧ u n ≤ 1)
    (he : 0 ≤ config.random_spread_edge) (hi : 0 ≤ config.random_spread_interior) :
    (¬(edge = [] ∧ interior = []) →
      generate_random_values config edge interior u c = (edge, interior)) ∧
    (edge = [] → interior = [] →
      (∀ i < config.density_spoke, ∃ x y : ℝ,
        (i, x, y) ∈ (generate_random_values config edge interior u c).1 ∧
        |x| ≤ config.random_spread_edge ∧ |y| ≤ config.random_spread_edge) ∧
      (∀ i < config.density_spoke, ∀ j < config.density_rib, ∃ v : ℝ,
        ((i, j), v) ∈ (generate_random_values config edge interior u c).2 ∧
        |v| ≤ config.random_spread_interior)) := by
  constructor
  · exact generate_unchanged config edge interior u c
  · intro hedge hinterior
    subst hedge
    subst hinterior
    unfold generate_random_values
    have hcond : (([] : List (ℕ × ℝ × ℝ)).isEmpty &&
        ([] : List ((ℕ × ℕ) × ℝ)).isEmpty) = true := rfl
    rw [if_pos hcond]
    constructor
    · intro i hilt
      refine ⟨_, _, List.mem_map.mpr ⟨i, List.mem_range.mpr hilt, rfl⟩, ?_, ?_⟩
      · exact draw_abs_le _ _ _ he (hu (2 * i)).1 (hu (2 * i)).2
      · exact draw_abs_le _ _ _ he (hu (2 * i + 1)).1 (hu (2 * i + 1)).2
    · intro i hilt j hjlt
      refine ⟨_, List.mem_flatMap.mpr ⟨i, List.mem_range.mpr hilt,
        List.mem_map.mpr ⟨j, List.mem_range.mpr hjlt, rfl⟩⟩, ?_⟩
      exact draw_abs_le _ _ _ hi
        (hu (2 * config.density_spoke + i * config.density_rib + j)).1
        (hu (2 * config.density_spoke + i * config.density_rib + j)).2

/-- Witness for C10: with a partially supplied ledger (edge entry present,
no interior entries) nothing is generated and both maps pass through
unchanged. -/
theorem generate_random_values_spec_witness :
    generate_random_values default_spread_config [(0, 0, 0)] []
      (fun _ => 1/2) (fun _ => true) = ([(0, 0, 0)], []) :=
  (generate_random_values_spec default_spread_config [(0, 0, 0)] []
    (fun _ => 1/2) (fun _ => true)
    (fun _ => ⟨by norm_num, by norm_num⟩)
    (by norm_num [default_spread_config, mkSpiderSpreadConfig])
    (by norm_num [default_spread_config, mkSpiderSpreadConfig])).1 (by simp)

/-- C8: two runs of the spread layout with identical origin, target,
config and an identical supplied (not fully empty) ledger produce
identical center, spoke and rib anchor positions, whatever randomness
streams the runs carry: the layout draws no randomness of its own. -/
theorem create_spread_deterministic (origin target : Vec3) (config : SpiderSpreadConfig)
    (edge : List (ℕ × ℝ × ℝ)) (interior : List ((ℕ × ℕ) × ℝ))
    (u1 u2 : ℕ → ℝ) (c1 c2 : ℕ → Bool) (toTrack : Vec3 → Vec3 → Vec3)
    (h : ¬(edge = [] ∧ interior = [])) :
    create_spread_positions origin target config edge interior u1 c1 toTrack =
    create_spread_positions origin target config edge interior u2 c2 toTrack := by
  unfold create_spread_positions
  rw [generate_unchanged config edge interior u1 c1 h,
    generate_unchanged config edge interior u2 c2 h]

/-- Witness for C8 on concrete inputs with two different random streams. -/
theorem create_spread_deterministic_witness :
    create_spread_positions 0 ⟨0, 0, 1⟩ default_spread_config [(0, 0, 0)] []
      (fun _ => 0) (fun _ => true) (fun _ v => v) =
    create_spread_positions 0 ⟨0, 0, 1⟩ default_spread_config [(0, 0, 0)] []
      (fun _ => 1/2) (fun _ => false) (fun _ v => v) :=
  create_spread_deterministic 0 ⟨0, 0, 1⟩ default_spread_config [(0, 0, 0)] []
    (fun _ => 0) (fun _ => 1/2) (fun _ => true) (fun _ => false) (fun _ v => v)
    (by simp)


end SpiderWebAddon
